import Mathlib

/-!
# Verification of the template-driven PowerPoint rendering pipeline

Shallow embedding of the core modules of the `excel-to-ppt-report` repository
(`src/core/component_factory.py`, `src/core/ppt_generator.py`,
`src/core/data_mapper.py`, `src/components/base_component.py`,
`src/components/text_component.py`, `src/components/chart_component.py`)
together with theorems settling the frozen claims about them.

Python dictionaries are modelled as association lists preserving insertion
order, Python strings as `String` or `List Char`, Python floats appearing in
the chart-dimension arithmetic as `ℚ`, and `int()` on the nonnegative values
occurring there as `Rat.floor`.  Fallible Python code is modelled with
`Except`.
-/

namespace ExcelPpt

/-- Python exception classes that the embedded code raises or catches.
`wrapped` models the re-raised `Exception(f"Failed to create ...")` of
`component_factory.py`. -/
inductive PyErr where
  | typeError (msg : String)
  | valueError (msg : String)
  | indexError (msg : String)
  | exception (msg : String)
  | wrapped (msg : String)
  deriving DecidableEq, Repr

/-! ## Template settings and brand colors (`base_component.py`) -/

/-- Embedding of `settings` sub-dictionary of a template: only the `color_scheme` entry is
relevant to the claims.  The color scheme is a Python dict of color-slot name
to hex string, kept in insertion order. -/
structure SettingsDict where
  colorScheme : List (String × String)
  deriving DecidableEq, Repr

/-- A template dictionary as passed to `BaseComponent.__init__`'s `template`
parameter. -/
structure TemplateDict where
  settings : SettingsDict
  deriving DecidableEq, Repr

/-- Ordered lookup in an association list modelling a Python dict read
(`d.get(k)` on a dict with unique keys). -/
def dictGet (d : List (String × String)) (k : String) : Option String :=
  (d.find? (fun kv => kv.1 = k)).map (·.2)

/-- Embedding of `BaseComponent.get_template_colors` (base_component.py:158-180): returns
the template's `settings.color_scheme`, or `None` when the component has no
template back-reference or the scheme is empty (falsy). -/
def getTemplateColors (template : Option TemplateDict) :
    Option (List (String × String)) :=
  match template with
  | none => none
  | some t => if t.settings.colorScheme = [] then none else some t.settings.colorScheme

/-- The hardcoded default color list of `get_template_color_list`
(base_component.py:198 and 215). -/
def defaultTemplateColors : List String :=
  ["#2563EB", "#10B981", "#F59E0B", "#EF4444", "#8B5CF6", "#EC4899"]

/-- The five priority slots extracted first (base_component.py:202). -/
def colorKeys : List String :=
  ["primary", "secondary", "accent", "negative", "neutral"]

/-- Embedding of `BaseComponent.get_template_color_list` (base_component.py:182-217):
priority slots first, then any further hex-valued entries of the scheme in
insertion order, falling back to the hardcoded defaults when nothing is
available.  Scheme values are modelled as strings (the `isinstance(value,
str)` test always passes). -/
def getTemplateColorList (template : Option TemplateDict) : List String :=
  match getTemplateColors template with
  | none => defaultTemplateColors
  | some scheme =>
      let part1 := colorKeys.filterMap (fun k => dictGet scheme k)
      let part2 := (scheme.filter
        (fun kv => kv.1 ∉ colorKeys ∧ kv.2.startsWith "#")).map (·.2)
      let colors := part1 ++ part2
      if colors = [] then defaultTemplateColors else colors

/-! ## The component factory (`component_factory.py`) -/

/-- The five registered component type tags, i.e. the keys of
`ComponentFactory.COMPONENT_TYPES` (component_factory.py:32-38). -/
inductive ComponentTag where
  | text | table | image | chart | summary
  deriving DecidableEq, Repr

/-- The closed registry `COMPONENT_TYPES` mapping a type-tag string to the
class registered for it. -/
def componentRegistry : List (String × ComponentTag) :=
  [("text", .text), ("table", .table), ("image", .image),
   ("chart", .chart), ("summary", .summary)]

/-- A component configuration as far as the factory inspects it: the `type`
entry of the dict.  `none` models a missing `type` key; the empty string
models a present but falsy tag (both hit the `if not component_type` branch,
component_factory.py:72). -/
structure ComponentCfg where
  type? : Option String
  deriving DecidableEq, Repr

/-- A constructed component instance as `BaseComponent.__init__` would build
it, including the template back-reference it stores in `self.template`
(base_component.py:37). -/
structure ComponentInstance where
  tag : ComponentTag
  template : Option TemplateDict
  deriving DecidableEq, Repr

/-- Whether the `__init__` of the concrete class registered for a tag accepts
a `template` keyword argument.  Every one of the five subclasses declares
`def __init__(self, config)` only (text_component.py:23, table_component.py:24,
image_component.py:24, chart_component.py:41, summary_component.py:34), so
none of them does — only the base class (base_component.py:22) would. -/
def initAcceptsTemplateKw : ComponentTag → Bool := fun _ => false

/-- The Python call `component_class(config, template=template)`
(component_factory.py:85): passing a keyword argument that the resolved
`__init__` does not declare raises `TypeError` before the constructor body
runs; otherwise the instance is built and stores the template reference. -/
def callConstructor (tag : ComponentTag) (template : Option TemplateDict) :
    Except PyErr ComponentInstance :=
  if initAcceptsTemplateKw tag then
    .ok { tag := tag, template := template }
  else
    .error (.typeError "__init__() got an unexpected keyword argument 'template'")

/-- Embedding of `ComponentFactory.create_component` (component_factory.py:40-90): checks
the `type` tag against the registry, then calls the registered class with
`(config, template=template)`; any exception from that call is re-raised as
`Exception(f"Failed to create {component_type} component: ...")`. -/
def createComponent (config : ComponentCfg) (template : Option TemplateDict) :
    Except PyErr ComponentInstance :=
  match config.type? with
  | none => .error (.valueError "Component configuration must include 'type' key")
  | some tagStr =>
      if tagStr = "" then
        .error (.valueError "Component configuration must include 'type' key")
      else
        match dictGetTag tagStr with
        | none => .error (.valueError
            ("Invalid component type: '" ++ tagStr ++ "'"))
        | some tag =>
            match callConstructor tag template with
            | .ok c => .ok c
            | .error _ => .error (.wrapped
                ("Failed to create " ++ tagStr ++ " component"))
where
  /-- Embedding of `cls.COMPONENT_TYPES.get(component_type)` (component_factory.py:75). -/
  dictGetTag (s : String) : Option ComponentTag :=
    (componentRegistry.find? (fun kv => kv.1 = s)).map (·.2)

/-! ## The document generator (`ppt_generator.py`) -/

/-- The observable outcome of the three per-element steps of
`PPTGenerator._render_component` (ppt_generator.py:234-245): whether
`ComponentFactory.create_component`, `DataMapper.get_data_for_component` and
`component.render` each succeed or raise.  The steps call into python-pptx,
pandas and matplotlib, so their outcomes are inputs of the model. -/
structure ElemOutcome where
  createErr? : Option PyErr
  mapDataErr? : Option PyErr
  renderErr? : Option PyErr
  deriving DecidableEq, Repr

/-- What the slide loop records for one element config. -/
inductive ElemResult where
  | rendered
  | skipped (e : PyErr)
  deriving DecidableEq, Repr

/-- The `try` body of `_render_component` (ppt_generator.py:234-245): create,
then map data, then render, propagating the first exception. -/
def renderComponentBody (o : ElemOutcome) : Except PyErr Unit := do
  match o.createErr? with
  | some e => throw e
  | none =>
  match o.mapDataErr? with
  | some e => throw e
  | none =>
  match o.renderErr? with
  | some e => throw e
  | none => pure ()

/-- Embedding of `_render_component` with its two `except` clauses (ppt_generator.py:247-258):
both the `IndexError` handler and the catch-all `Exception` handler log a
warning and fall through, so every exception of the body is converted into a
`skipped` record and none is re-raised. -/
def renderComponent (o : ElemOutcome) : ElemResult :=
  match renderComponentBody o with
  | .ok _ => .rendered
  | .error e => .skipped e

/-- The per-slide component loop of `_generate_slide` (ppt_generator.py:201-202),
kept in the exception monad to make visible that no iteration can abort it. -/
def slideComponentLoop : List ElemOutcome → Except PyErr (List ElemResult)
  | [] => .ok []
  | o :: os => do
      let r := renderComponent o
      let rs ← slideComponentLoop os
      return r :: rs

/-- A slide configuration: its `layout` tag and the step outcomes of its
element configs. -/
structure SlideCfg where
  layout : String
  components : List ElemOutcome
  deriving Repr

/-- Embedding of `_get_layout_index` (ppt_generator.py:204-224). -/
def layoutIndex (layoutName : String) : Nat :=
  let layoutMap : List (String × Nat) :=
    [("title", 0), ("title_content", 1), ("section", 2), ("two_content", 3),
     ("comparison", 4), ("blank", 5), ("content", 6)]
  ((layoutMap.find? (fun kv => kv.1 = layoutName.toLower)).map (·.2)).getD 5

/-- One finished page of the output document. -/
structure SlidePage where
  layoutIdx : Nat
  results : List ElemResult
  deriving DecidableEq, Repr

/-- Embedding of `_generate_slide` (ppt_generator.py:179-202): adds one slide of the
declared layout and runs the component loop on it. -/
def generateSlide (s : SlideCfg) : Except PyErr SlidePage := do
  let rs ← slideComponentLoop s.components
  return { layoutIdx := layoutIndex s.layout, results := rs }

/-- A loaded template as `generate` walks it. -/
structure TemplateT where
  slides : List SlideCfg
  deriving Repr

/-- The in-progress presentation: its ordered slide pages.  When
`generate` is given an existing `.pptx` seed file (its `template_pptx`
argument, ppt_generator.py:136-137) the presentation starts with that file's
pages; a blank `Presentation()` starts with none. -/
structure PresentationT where
  pages : List SlidePage
  deriving DecidableEq, Repr

def slidesLoop : List SlideCfg → Except PyErr (List SlidePage)
  | [] => .ok []
  | s :: ss => do
      let p ← generateSlide s
      let ps ← slidesLoop ss
      return p :: ps

/-- Embedding of `PPTGenerator.generate` (ppt_generator.py:111-160): refuses when no
template is loaded, starts from the seed presentation (or a blank one), and
appends one slide page per template slide in template order. -/
def generate (currentTemplate : Option TemplateT) (seed : Option PresentationT) :
    Except PyErr PresentationT :=
  match currentTemplate with
  | none => .error (.valueError "No template loaded. Call load_template() first.")
  | some t => do
      let basePages := (seed.map (·.pages)).getD []
      let newPages ← slidesLoop t.slides
      return { pages := basePages ++ newPages }

/-! ## Claims C1 and C2 -/

/-- Claim C1 (code_bug evidence).  `ComponentFactory.create_component` never
returns a component instance: for every configuration and every template
argument the call `component_class(config, template=template)`
(component_factory.py:85) raises `TypeError`, because none of the five
registered classes' `__init__` methods accepts a `template` keyword, so the
factory always raises instead of returning the element the claim (and the
factory's own docstring and `test_factory`) promise. -/
theorem C1_factory_never_returns_instance
    (config : ComponentCfg) (template : Option TemplateDict)
    (c : ComponentInstance) : createComponent config template ≠ .ok c := by
  unfold createComponent
  cases config.type? with
  | none => simp
  | some s =>
      by_cases hs : s = "" <;>
        simp only [hs, reduceIte, ne_eq, if_false, if_true] <;>
        first
          | simp
          | cases h : createComponent.dictGetTag s <;>
              simp [callConstructor, initAcceptsTemplateKw]

/-- Claim C1 evaluation at the concrete failing input: a perfectly valid text
element config `{'type': 'text'}` with an (empty-scheme) template dict makes
the factory raise the wrapped creation failure. -/
theorem C1_factory_failing_input :
    createComponent ⟨some "text"⟩ (some ⟨⟨[]⟩⟩) =
      .error (.wrapped "Failed to create text component") := by
  rfl

/-- The slide loop never propagates: it always succeeds with one result per
element config, in order. -/
theorem slideComponentLoop_ok (cs : List ElemOutcome) :
    slideComponentLoop cs = .ok (cs.map renderComponent) := by
  induction cs with
  | nil => rfl
  | cons c cs ih => simp [slideComponentLoop, ih]

/-- The page a template slide config is rendered to. -/
def renderedPage (s : SlideCfg) : SlidePage :=
  { layoutIdx := layoutIndex s.layout, results := s.components.map renderComponent }

theorem generateSlide_ok (s : SlideCfg) :
    generateSlide s = .ok (renderedPage s) := by
  simp [generateSlide, slideComponentLoop_ok, renderedPage]

theorem slidesLoop_ok (ss : List SlideCfg) :
    slidesLoop ss = .ok (ss.map renderedPage) := by
  induction ss with
  | nil => rfl
  | cons s ss ih => simp [slidesLoop, generateSlide_ok, ih]; rfl

/-- An element whose three steps all succeed is rendered. -/
theorem renderComponent_eq_rendered (o : ElemOutcome)
    (h1 : o.createErr? = none) (h2 : o.mapDataErr? = none)
    (h3 : o.renderErr? = none) : renderComponent o = .rendered := by
  obtain ⟨c, m, r⟩ := o
  simp only at h1 h2 h3
  subst h1; subst h2; subst h3
  rfl

/-- Claim C2 (confirmed).  Any exception at any of the three per-element steps
(creation, data mapping, render) is caught inside the slide loop: for every
sequence of per-element step outcomes the loop finishes normally (never
propagates an exception), records exactly one result per element config in
order (skipping exactly the failed ones, rendering the successful ones), and
the whole document generation also finishes normally for every template and
seed — no element's exception aborts the slide or the document. -/
theorem C2_element_failures_contained :
    (∀ (cs : List ElemOutcome),
        slideComponentLoop cs = .ok (cs.map renderComponent) ∧
        (cs.map renderComponent).length = cs.length ∧
        (∀ i (h : i < cs.length),
          (cs.map renderComponent).get? i =
            some (renderComponent (cs.get ⟨i, h⟩))) ∧
        (∀ i (h : i < cs.length),
          (cs.get ⟨i, h⟩).createErr? = none →
          (cs.get ⟨i, h⟩).mapDataErr? = none →
          (cs.get ⟨i, h⟩).renderErr? = none →
          (cs.map renderComponent).get? i = some .rendered)) ∧
    (∀ (t : TemplateT) (seed : Option PresentationT),
        generate (some t) seed =
          .ok ⟨((seed.map (·.pages)).getD []) ++ t.slides.map renderedPage⟩) := by
  constructor
  · intro cs
    refine ⟨slideComponentLoop_ok cs, by simp, ?_, ?_⟩
    · intro i h
      rw [List.get?_map, List.get?_eq_get h]
      rfl
    · intro i h h1 h2 h3
      rw [List.get?_map, List.get?_eq_get h]
      exact congrArg some (renderComponent_eq_rendered _ h1 h2 h3)
  · intro t seed
    simp [generate, slidesLoop_ok]

/-- Witness for C2 at a concrete slide: the first element's creation step
raises and is recorded as skipped, the second element still renders. -/
theorem C2_element_failures_contained_witness :
    slideComponentLoop
        [⟨some (.exception "boom"), none, none⟩, ⟨none, none, none⟩] =
      .ok [.skipped (.exception "boom"), .rendered] ∧
    (([⟨some (.exception "boom"), none, none⟩,
       ⟨none, none, none⟩] : List ElemOutcome).map renderComponent).get? 1 =
      some .rendered := by
  refine ⟨(C2_element_failures_contained.1 _).1, ?_⟩
  exact (C2_element_failures_contained.1 _).2.2.2 1 (by decide) rfl rfl rfl

/-- Claim C6 counterexample.  `generate` does not always produce exactly `N`
slide pages for a template with `N` slides: when the caller supplies an
existing `.pptx` file as `template_pptx` (ppt_generator.py:136-137), its
pages are kept and the template's pages are appended after them.  Here a
one-slide template generated on top of a one-page seed presentation yields a
document with 2 pages, not 1. -/
theorem C6_generate_page_count_counterexample :
    generate (some ⟨[⟨"blank", []⟩]⟩) (some ⟨[⟨5, []⟩]⟩) =
      .ok ⟨[⟨5, []⟩, renderedPage ⟨"blank", []⟩]⟩ ∧
    ([⟨5, []⟩, renderedPage ⟨"blank", []⟩] : List SlidePage).length ≠ 1 :=
  ⟨rfl, by decide⟩

/-- Claim C6 as amended.  A successful `generate()` call appends exactly one
page per template slide, in template order, after the pages of the seed
presentation; in particular, when no seed `.pptx` is supplied (the
presentation starts blank, with no pages) the document has exactly `N` slide
pages for a template with `N` slides. -/
theorem C6_generate_page_count_amended (t : TemplateT) (seed : Option PresentationT)
    (p : PresentationT) (h : generate (some t) seed = .ok p) :
    p.pages = ((seed.map (·.pages)).getD []) ++ t.slides.map renderedPage ∧
    p.pages.length = ((seed.map (·.pages)).getD []).length + t.slides.length ∧
    (seed = none → p.pages.length = t.slides.length) := by
  simp only [generate, slidesLoop_ok] at h
  have hp : p = ⟨((seed.map (·.pages)).getD []) ++ t.slides.map renderedPage⟩ := by
    injection h with h
    exact h.symm
  subst hp
  refine ⟨rfl, by simp, ?_⟩
  intro hs
  subst hs
  simp

/-- Witness for the amended C6 at a concrete input: a one-slide template with
no seed presentation produces exactly one page. -/
theorem C6_generate_page_count_amended_witness :
    (generate (some ⟨[⟨"blank", []⟩]⟩) none =
      .ok ⟨[renderedPage ⟨"blank", []⟩]⟩) ∧
    ([renderedPage ⟨"blank", []⟩] : List SlidePage).length = 1 := by
  refine ⟨rfl, ?_⟩
  have h := C6_generate_page_count_amended ⟨[⟨"blank", []⟩]⟩ none
    ⟨[renderedPage ⟨"blank", []⟩]⟩ rfl
  simpa using h.2.2 rfl

/-! ## Chart raster dimensions (`chart_component.py:_generate_chart`) -/

/-- Python `int()` as applied in `_generate_chart`: every value it is applied
to there is nonnegative, where truncation towards zero coincides with the
floor. -/
def pyInt (q : ℚ) : ℤ := ⌊q⌋

/-- The figure-width clamp (chart_component.py:225-229): widths above 20
inches are forced to 20, widths below 1 inch to 9, other widths kept. -/
def clampFigW (raw : ℚ) : ℚ :=
  if raw > 20 ∨ raw < 1 then (if raw > 20 then 20 else 9) else raw

/-- The figure-height clamp (chart_component.py:231-235): heights above 15
inches are forced to 15, heights below 1 inch to 5, other heights kept. -/
def clampFigH (raw : ℚ) : ℚ :=
  if raw > 15 ∨ raw < 1 then (if raw > 15 then 15 else 5) else raw

/-- The first DPI clamp (chart_component.py:238-248): starting from 100 DPI,
if either axis at 100 DPI would exceed `max_pixels = 10000`, the DPI is
reduced to `int(min(10000/fig_width, 10000/fig_height, dpi))` and floored at
50. -/
def dpiAfterFirstClamp (w h : ℚ) : ℤ :=
  if w * 100 > 10000 ∨ h * 100 > 10000 then
    max 50 (pyInt (min (10000 / w) (min (10000 / h) 100)))
  else 100

/-- The pixel extent `int(fig_size * dpi)` (chart_component.py:291-292). -/
def expectedPx (f : ℚ) (dpi : ℤ) : ℤ := pyInt (f * dpi)

/-- The second, pre-save DPI clamp (chart_component.py:295-305): if either
expected pixel extent exceeds `MAX_DIMENSION_PX = 10000`, the DPI is scaled
by `min(10000/expected_w, 10000/expected_h, 1.0)` and floored at 50. -/
def dpiAfterSecondClamp (w h : ℚ) (dpi : ℤ) : ℤ :=
  let ew := expectedPx w dpi
  let eh := expectedPx h dpi
  if ew > 10000 ∨ eh > 10000 then
    max 50 (pyInt (dpi * min (10000 / (ew : ℚ)) (min (10000 / (eh : ℚ)) 1)))
  else dpi

/-- The pixel dimensions of the raster `plt.savefig` emits for a requested
component size of `rawW × rawH` inches (`bbox_inches=None`, so the saved
image is exactly the figure size times the final DPI,
chart_component.py:309-316). -/
def savedDims (rawW rawH : ℚ) : ℤ × ℤ :=
  let w := clampFigW rawW
  let h := clampFigH rawH
  let d1 := dpiAfterFirstClamp w h
  let d2 := dpiAfterSecondClamp w h d1
  (expectedPx w d2, expectedPx h d2)

/-- The post-save verification pass (chart_component.py:319-332) as a
function of the re-measured dimensions of the saved image: when either axis
exceeds the limit a warning is printed, but a resize is performed only when
the *width* exceeds it, scaling both axes by `10000/width`. -/
def verifyResize (w h : ℤ) : ℤ × ℤ :=
  if w > 10000 ∨ h > 10000 then
    if w > 10000 then (10000, pyInt ((h : ℚ) * (10000 / (w : ℚ)))) else (w, h)
  else (w, h)

theorem clampFigW_bounds (raw : ℚ) : 1 ≤ clampFigW raw ∧ clampFigW raw ≤ 20 := by
  unfold clampFigW
  split
  · split <;> norm_num
  · next hc =>
      push_neg at hc
      exact ⟨hc.2, hc.1⟩

theorem clampFigH_bounds (raw : ℚ) : 1 ≤ clampFigH raw ∧ clampFigH raw ≤ 15 := by
  unfold clampFigH
  split
  · split <;> norm_num
  · next hc =>
      push_neg at hc
      exact ⟨hc.2, hc.1⟩

theorem dpiAfterFirstClamp_bounds (w h : ℚ) :
    1 ≤ dpiAfterFirstClamp w h ∧ dpiAfterFirstClamp w h ≤ 100 := by
  unfold dpiAfterFirstClamp
  split
  · constructor
    · exact le_trans (by norm_num) (le_max_left 50 _)
    · have hmin : min (10000 / w) (min (10000 / h) 100) ≤ (100 : ℚ) :=
        le_trans (min_le_right _ _) (min_le_right _ _)
      have : pyInt (min (10000 / w) (min (10000 / h) 100)) ≤ 100 := by
        unfold pyInt
        calc ⌊min (10000 / w) (min (10000 / h) 100)⌋ ≤ ⌊(100 : ℚ)⌋ :=
              Int.floor_le_floor hmin
          _ = 100 := by norm_num
      exact max_le (by norm_num) this
  · norm_num

/-- Pixel bound for one axis: figure extent ≤ `bound` inches and DPI ≤ 100
give at most `100 * bound` pixels. -/
theorem expectedPx_le (f : ℚ) (d : ℤ) (bound : ℚ)
    (hf0 : 0 ≤ f) (hf : f ≤ bound) (hd0 : 0 ≤ d) (hd : d ≤ 100) :
    expectedPx f d ≤ pyInt (bound * 100) := by
  unfold expectedPx pyInt
  apply Int.floor_le_floor
  have hdq : (d : ℚ) ≤ 100 := by exact_mod_cast hd
  have hdq0 : (0 : ℚ) ≤ (d : ℚ) := by exact_mod_cast hd0
  calc f * d ≤ bound * d := by
        apply mul_le_mul_of_nonneg_right hf hdq0
    _ ≤ bound * 100 := by
        apply mul_le_mul_of_nonneg_left hdq (le_trans hf0 hf)

/-- Claim C3 counterexample.  Two parts of the claim fail on the code.
(1) Mechanism: a 300 × 5 inch request has requested pixel dimensions
300 in × 100 DPI = 30000 px > 10000 px, but the clamp is *not* achieved by
reducing the DPI (it stays 100); the figure width is reduced to 20 inches
instead.  (2) The verification pass does not resize whenever *either* axis
exceeds the limit: re-measured dimensions 2000 × 12000 (height exceeding the
10000 px extent) are returned unchanged. -/
theorem C3_raster_clamp_counterexample :
    clampFigW 300 = 20 ∧
    dpiAfterFirstClamp (clampFigW 300) (clampFigH 5) = 100 ∧
    (300 : ℚ) * 100 > 10000 ∧
    savedDims 300 5 = (2000, 500) ∧
    verifyResize 2000 12000 = (2000, 12000) ∧ (12000 : ℤ) > 10000 := by
  refine ⟨by norm_num [clampFigW], ?_, by norm_num, ?_, ?_, by norm_num⟩
  · norm_num [clampFigW, clampFigH, dpiAfterFirstClamp]
  · norm_num [savedDims, clampFigW, clampFigH, dpiAfterFirstClamp,
      dpiAfterSecondClamp, expectedPx, pyInt]
  · norm_num [verifyResize]

/-- Claim C3 as amended.  For every requested chart size, the emitted raster's
pixel width and height are both ≤ the 10000 px limit kept below the
backend's 2^16 maximum raster extent — guaranteed because the figure size is
first clamped to at most 20 × 15 inches and the DPI never exceeds 100, with
the two DPI-reduction clamps as further (in practice unreachable)
safeguards, and never by cropping or failing.  The independent verification
pass resizes the re-measured image only when its *width* exceeds the limit
(fixing the width to exactly 10000 px); a height-only excess is logged but
returned unchanged. -/
theorem C3_raster_dims_amended :
    (∀ rawW rawH : ℚ,
      (savedDims rawW rawH).1 ≤ 10000 ∧ (savedDims rawW rawH).2 ≤ 10000) ∧
    (∀ w h : ℤ, 10000 < w → (verifyResize w h).1 = 10000) ∧
    (∀ w h : ℤ, w ≤ 10000 → verifyResize w h = (w, h)) := by
  refine ⟨?_, ?_, ?_⟩
  · intro rawW rawH
    obtain ⟨hw1, hw2⟩ := clampFigW_bounds rawW
    obtain ⟨hh1, hh2⟩ := clampFigH_bounds rawH
    obtain ⟨hd1, hd2⟩ := dpiAfterFirstClamp_bounds (clampFigW rawW) (clampFigH rawH)
    set w := clampFigW rawW
    set h := clampFigH rawH
    set d1 := dpiAfterFirstClamp w h with hd1def
    have hw0 : (0 : ℚ) ≤ w := le_trans (by norm_num) hw1
    have hh0 : (0 : ℚ) ≤ h := le_trans (by norm_num) hh1
    have hd0 : (0 : ℤ) ≤ d1 := le_trans (by norm_num) hd1
    have hew : expectedPx w d1 ≤ 2000 := by
      have hb : pyInt ((20 : ℚ) * 100) = 2000 := by
        rw [show ((20 : ℚ) * 100) = ((2000 : ℤ) : ℚ) by norm_num]
        simp [pyInt]
      exact hb ▸ expectedPx_le w d1 20 hw0 hw2 hd0 hd2
    have heh : expectedPx h d1 ≤ 1500 := by
      have hb : pyInt ((15 : ℚ) * 100) = 1500 := by
        rw [show ((15 : ℚ) * 100) = ((1500 : ℤ) : ℚ) by norm_num]
        simp [pyInt]
      exact hb ▸ expectedPx_le h d1 15 hh0 hh2 hd0 hd2
    have hsecond : dpiAfterSecondClamp w h d1 = d1 := by
      unfold dpiAfterSecondClamp
      have : ¬(expectedPx w d1 > 10000 ∨ expectedPx h d1 > 10000) := by
        push_neg
        exact ⟨le_trans hew (by norm_num), le_trans heh (by norm_num)⟩
      simp only [this, if_false]
    show expectedPx w (dpiAfterSecondClamp w h d1) ≤ 10000 ∧
      expectedPx h (dpiAfterSecondClamp w h d1) ≤ 10000
    rw [hsecond]
    exact ⟨le_trans hew (by norm_num), le_trans heh (by norm_num)⟩
  · intro w h hw
    unfold verifyResize
    rw [if_pos (Or.inl hw), if_pos hw]
  · intro w h hw
    have hnw : ¬(10000 : ℤ) < w := not_lt.mpr hw
    by_cases hh : h > 10000 <;> simp [verifyResize, hnw, hh]

/-- Witness for the amended C3 at concrete inputs: an oversized 300 × 300
inch request still yields a raster within the limit on both axes, and a
10050 px wide re-measured image is resized to exactly 10000 px wide. -/
theorem C3_raster_dims_amended_witness :
    ((savedDims 300 300).1 ≤ 10000 ∧ (savedDims 300 300).2 ≤ 10000) ∧
    (verifyResize 10050 400).1 = 10000 := by
  exact ⟨C3_raster_dims_amended.1 300 300,
    C3_raster_dims_amended.2.1 10050 400 (by norm_num)⟩

/-! ## Chart temp-file lifecycle (`chart_component.py:render` /
`_generate_chart`) -/

/-- Where, if anywhere, the chart-rendering flow raises.  These are the fault
points the source's control flow distinguishes:
`emptyData` — `_prepare_data` returns `None`/an empty frame
(chart_component.py:116-120); `plotFail` — an exception inside
`_generate_chart` before the temp file is created at line 280 (figure setup,
plotting, styling); `saveFail` — an exception inside `_generate_chart` after
the temp file is created (e.g. `plt.savefig` at line 309); `embedFail` —
`slide.shapes.add_picture` raises (line 131); `noFault` — everything
succeeds. -/
inductive ChartFault where
  | noFault | emptyData | plotFail | saveFail | embedFail
  deriving DecidableEq, Repr

/-- The single temp raster file's state at the end of `render`. -/
structure TempFileState where
  created : Bool
  onDisk : Bool
  deriving DecidableEq, Repr

/-- How `render` exits. -/
inductive RenderExit where
  | pictureEmbedded
  | placeholderDrawn
  | exceptionPropagated
  deriving DecidableEq, Repr

/-- Embedding of `_generate_chart` (chart_component.py:201-351): the temp file is created
by `tempfile.NamedTemporaryFile(delete=False)` at line 280; the `except`
clause at line 342 closes the figure and returns `None` but never unlinks
the temp file, so a failure after creation leaves it on disk. -/
def generateChartRun (fault : ChartFault) : Option Unit × TempFileState :=
  match fault with
  | .plotFail => (none, { created := false, onDisk := false })
  | .saveFail => (none, { created := true, onDisk := true })
  | _ => (some (), { created := true, onDisk := true })

/-- Embedding of `ChartComponent.render` (chart_component.py:107-144): empty data or a
`None` chart path draw the placeholder; otherwise `add_picture` runs inside
`try ... finally`, whose `finally` unlinks the temp file both on success and
when `add_picture` raises (in which case the exception still propagates to
the generator's slide loop). -/
def chartRender (fault : ChartFault) : TempFileState × RenderExit :=
  match fault with
  | .emptyData => ({ created := false, onDisk := false }, .placeholderDrawn)
  | _ =>
    match generateChartRun fault with
    | (none, fs) => (fs, .placeholderDrawn)
    | (some _, fs) =>
        let fsAfter := { fs with onDisk := false }
        if fault = .embedFail then (fsAfter, .exceptionPropagated)
        else (fsAfter, .pictureEmbedded)

/-- Claim C4 counterexample.  The temp raster file is *not* deleted on every
exit path: when chart generation raises after the temp file has been created
(e.g. `plt.savefig` fails), `_generate_chart`'s `except` clause returns
`None` without unlinking it, `render` falls back to the placeholder, and the
file is left on disk. -/
theorem C4_temp_file_leak_counterexample :
    chartRender .saveFail =
      ({ created := true, onDisk := true }, .placeholderDrawn) ∧
    (chartRender .saveFail).1.created = true ∧
    (chartRender .saveFail).1.onDisk = true := by
  exact ⟨rfl, rfl, rfl⟩

/-- Claim C4 as amended.  On every exit path *except* a generation failure that
occurs after the temp file is created, any created temp raster file is
deleted before `render` returns: this covers successful embedding, the
empty-data and generation-failure-before-creation placeholder paths, and an
exception raised while embedding the picture. -/
theorem C4_temp_file_scoped_amended (fault : ChartFault)
    (h : fault ≠ .saveFail) :
    (chartRender fault).1.created = true → (chartRender fault).1.onDisk = false := by
  cases fault with
  | saveFail => exact absurd rfl h
  | noFault => intro _; rfl
  | emptyData => intro hc; exact absurd hc (by decide)
  | plotFail => intro hc; exact absurd hc (by decide)
  | embedFail => intro _; rfl

/-- Witness for the amended C4: on the embed-failure path the created temp
file is gone from disk when `render` exits. -/
theorem C4_temp_file_scoped_amended_witness :
    (chartRender .embedFail).1.created = true ∧
    (chartRender .embedFail).1.onDisk = false :=
  ⟨rfl, C4_temp_file_scoped_amended .embedFail (by decide) rfl⟩

/-! ## Chart color resolution (`chart_component.py:_get_colors`) -/

/-- The `style['colors']` setting as the source dispatches on it
(chart_component.py:76 and 486-489): either a Python list of color strings,
a string (the default is the string `'default'`, and `'brand'` is special),
or some other value. -/
inductive ColorsSetting where
  | listVal (l : List String)
  | strVal (s : String)
  | otherVal
  deriving DecidableEq, Repr

/-- The hardcoded palette returned for `colors == 'brand'`
(chart_component.py:491), which the source comment marks
`TODO: get from template`. -/
def brandHardcoded : List String :=
  ["#2563EB", "#10B981", "#F59E0B", "#EF4444", "#8B5CF6", "#EC4899"]

/-- The hardcoded fallback palette (chart_component.py:522). -/
def fallbackColors : List String :=
  ["#1f77b4", "#ff7f0e", "#2ca02c", "#d62728", "#9467bd", "#8c564b"]

/-- The matplotlib `prop_cycle` walk (chart_component.py:495-513): each cycle
entry either yields a color string or is skipped (`none` models an entry
whose extraction fails or yields nothing); collection stops once 10 colors
are gathered.  The empty string is falsy and skipped by `if color:`. -/
def collectCycle : List (Option String) → Nat → List String
  | _, 0 => []
  | [], _ => []
  | none :: rest, budget => collectCycle rest budget
  | some c :: rest, budget + 1 =>
      if c = "" then collectCycle rest (budget + 1)
      else c :: collectCycle rest budget

/-- The backend-default part of the chain (chart_component.py:493-522): the
collected `prop_cycle` colors when any, else the hardcoded fallback. -/
def defaultColorChain (propCycle : List (Option String)) : List String :=
  let cs := collectCycle propCycle 10
  if cs = [] then fallbackColors else cs

set_option linter.unusedVariables false in
/-- Embedding of `ChartComponent._get_colors` (chart_component.py:475-522).  The method
has access to the component's `self.template` back-reference, passed here as
`tmpl`, but never reads it: the `'brand'` branch returns the hardcoded
palette instead of the template's color scheme. -/
def getColors (colors : ColorsSetting) (tmpl : Option TemplateDict)
    (propCycle : List (Option String)) : List String :=
  match colors with
  | .listVal l => if l.length > 0 then l else defaultColorChain propCycle
  | .strVal s => if s = "brand" then brandHardcoded else defaultColorChain propCycle
  | .otherVal => defaultColorChain propCycle

/-- A template whose color scheme names a single `primary` brand color. -/
def onePrimaryTemplate : TemplateDict := ⟨⟨[("primary", "#111111")]⟩⟩

theorem defaultColorChain_ne_nil (pc : List (Option String)) :
    defaultColorChain pc ≠ [] := by
  unfold defaultColorChain
  by_cases h : collectCycle pc 10 = [] <;> simp [h, fallbackColors]

/-- Claim C5 (code_bug evidence).  The `'brand'` branch of the color chain does
not pull the palette from the template's color scheme: `_get_colors` ignores
its template back-reference entirely (its result is the same for any two
templates), and for a template whose scheme is `{'primary': '#111111'}` it
returns the hardcoded palette rather than the scheme-derived list that
`BaseComponent.get_template_color_list` would produce — confirming the
source's own `TODO: get from template`.  The non-emptiness half of the claim
does hold: the chain never returns an empty list. -/
theorem C5_brand_colors_ignore_template :
    (∀ (c : ColorsSetting) (t1 t2 : Option TemplateDict)
        (pc : List (Option String)), getColors c t1 pc = getColors c t2 pc) ∧
    getColors (.strVal "brand") (some onePrimaryTemplate) [] = brandHardcoded ∧
    getTemplateColorList (some onePrimaryTemplate) = ["#111111"] ∧
    brandHardcoded ≠ ["#111111"] ∧
    (∀ (c : ColorsSetting) (t : Option TemplateDict)
        (pc : List (Option String)), getColors c t pc ≠ []) := by
  refine ⟨fun c t1 t2 pc => rfl, rfl, by decide, by decide, ?_⟩
  intro c t pc
  match c with
  | .listVal l =>
      by_cases hl : l.length > 0
      · simpa [getColors, hl] using fun h => by simp [h] at hl
      · simpa [getColors, hl] using defaultColorChain_ne_nil pc
  | .strVal s =>
      by_cases hs : s = "brand"
      · simp [getColors, hs, brandHardcoded]
      · simpa [getColors, hs] using defaultColorChain_ne_nil pc
  | .otherVal => exact defaultColorChain_ne_nil pc

/-! ## The data mapper (`data_mapper.py`)

A loaded pandas DataFrame is modelled as an ordered list of column names
plus rows, each row an association list from column name to cell value in
column order.  Cell values are a type parameter `α`; sorting-related claims
additionally assume a linear order on it. -/

/-- One row of a loaded table. -/
abbrev Row (α : Type) := List (String × α)

/-- A pandas DataFrame as the mapper manipulates it. -/
structure DataFrame (α : Type) where
  cols : List String
  rows : List (Row α)
  deriving DecidableEq, Repr

/-- Every row carries exactly the frame's columns, in order. -/
def DataFrame.WellFormed {α : Type} (df : DataFrame α) : Prop :=
  ∀ r ∈ df.rows, r.map Prod.fst = df.cols

instance {α : Type} (df : DataFrame α) : Decidable df.WellFormed := by
  unfold DataFrame.WellFormed; infer_instance

/-- The fresh `pd.DataFrame()` returned for an empty/missing session dataset
(data_mapper.py:191): it has no columns and no rows. -/
def emptyDF {α : Type} : DataFrame α := ⟨[], []⟩

/-- The value of row `r` in column `key` (`df[key]` for one row); `default`
stands for the missing-column case, which the mapper's guards avoid. -/
def cellVal {α : Type} [Inhabited α] (key : String) (r : Row α) : α :=
  ((r.find? (fun kv => kv.1 = key)).map (·.2)).getD default

/-- Embedding of `df[available_cols]` (data_mapper.py:200): keep the requested columns in
the requested order. -/
def projectDF {α : Type} [Inhabited α] (cs : List String) (df : DataFrame α) :
    DataFrame α :=
  ⟨cs, df.rows.map (fun r => cs.map (fun c => (c, cellVal c r)))⟩

/-- Applying a rename dict to one column label (`df.rename(columns=...)`
leaves labels outside the mapping unchanged). -/
def renameKey (m : List (String × String)) (s : String) : String :=
  ((m.find? (fun kv => kv.1 = s)).map (·.2)).getD s

/-- Embedding of `df.rename(columns=mapping)` (data_mapper.py:205 and 269). -/
def renameDF {α : Type} (m : List (String × String)) (df : DataFrame α) :
    DataFrame α :=
  ⟨df.cols.map (renameKey m),
   df.rows.map (fun r => r.map (fun kv => (renameKey m kv.1, kv.2)))⟩

/-- Row comparison by ascending value of column `key`. -/
def ascBy {α : Type} [LinearOrder α] [Inhabited α] (key : String) :
    Row α → Row α → Prop :=
  fun a b => cellVal key a ≤ cellVal key b

/-- Row comparison by descending value of column `key`. -/
def descBy {α : Type} [LinearOrder α] [Inhabited α] (key : String) :
    Row α → Row α → Prop :=
  fun a b => cellVal key b ≤ cellVal key a

instance {α : Type} [LinearOrder α] [Inhabited α] (key : String) :
    DecidableRel (ascBy (α := α) key) :=
  fun _ _ => LinearOrder.decidableLE _ _

instance {α : Type} [LinearOrder α] [Inhabited α] (key : String) :
    DecidableRel (descBy (α := α) key) :=
  fun _ _ => LinearOrder.decidableLE _ _

instance {α : Type} [LinearOrder α] [Inhabited α] (key : String) :
    IsTotal (Row α) (descBy key) :=
  ⟨fun _ _ => le_total _ _⟩

instance {α : Type} [LinearOrder α] [Inhabited α] (key : String) :
    IsTrans (Row α) (descBy key) :=
  ⟨fun _ _ _ h1 h2 => le_trans h2 h1⟩

/-- Embedding of `df.sort_values(by=key, ascending=asc)` (data_mapper.py:211): comparison
sort of the rows on the `key` column.  pandas does not guarantee a tie
order, and no claim depends on one. -/
def sortValues {α : Type} [LinearOrder α] [Inhabited α]
    (key : String) (asc : Bool) (rows : List (Row α)) : List (Row α) :=
  if asc then rows.insertionSort (ascBy key) else rows.insertionSort (descBy key)

/-- A `data_source` dict as `_get_tabular_data` reads it
(data_mapper.py:196-216).  `none` models a missing key; an explicitly empty
`columns` list or `column_mapping` dict is falsy in the source's `if`
guards, which the definitions below reproduce. -/
structure DataSourceSpec where
  columns : Option (List String)
  columnMapping : List (String × String)
  sortBy : Option String
  ascending : Option Bool
  topN : Option Int
  deriving DecidableEq, Repr

/-- Embedding of `DataMapper._get_tabular_data` (data_mapper.py:174-218): empty/missing
session data gives a fresh empty frame; otherwise, on a copy of the session
data — column projection onto the configured columns that exist (skipped
when none exists), renaming, sort by a present column (ascending defaulting
to `False`), and positive-top-N truncation. -/
def getTabularData {α : Type} [LinearOrder α] [Inhabited α]
    (ds : DataSourceSpec) (data : Option (DataFrame α)) : DataFrame α :=
  match data with
  | none => emptyDF
  | some df =>
    if df.rows.isEmpty ∨ df.cols.isEmpty then emptyDF
    else
      let df1 := match ds.columns with
        | some cs =>
            if cs ≠ [] then
              let available := cs.filter (fun c => c ∈ df.cols)
              if available ≠ [] then projectDF available df else df
            else df
        | none => df
      let df2 := if ds.columnMapping ≠ [] then renameDF ds.columnMapping df1 else df1
      let df3 := match ds.sortBy with
        | some k =>
            if k ∈ df2.cols then
              ⟨df2.cols, sortValues k (ds.ascending.getD false) df2.rows⟩
            else df2
        | none => df2
      match ds.topN with
      | some n => if n > 0 then ⟨df3.cols, df3.rows.take n.toNat⟩ else df3
      | none => df3

/-- The mapper's held session state: the one loaded dataset
(data_mapper.py:36, `self.data`). -/
structure MapperState (α : Type) where
  data : Option (DataFrame α)
  deriving DecidableEq, Repr

/-- Python `dict.update` for one key: an existing key keeps its position and
gets the new value, a new key is appended. -/
def dictUpsert {β : Type} (d : List (String × β)) (k : String) (v : β) :
    List (String × β) :=
  if d.any (fun kv => kv.1 = k) then
    d.map (fun kv => if kv.1 = k then (k, v) else kv)
  else d ++ [(k, v)]

/-- Python `dict.update` with a whole dict (later sources win on key
collision). -/
def dictUpdate {β : Type} (base upd : List (String × β)) : List (String × β) :=
  upd.foldl (fun d kv => dictUpsert d kv.1 kv.2) base

/-- What `get_data_for_component` hands back, by component type
(data_mapper.py:100-137). -/
inductive ComponentData (α : Type) where
  | varDict (vs : List (String × String))
  | frame (df : DataFrame α)
  | imageSpec (ds : DataSourceSpec)
  | rawSession (d : Option (DataFrame α))
  deriving DecidableEq, Repr

/-- A component config as the mapper reads it. -/
structure MapperCompConfig where
  type? : Option String
  dataSource : DataSourceSpec
  cfgVars : List (String × String)
  deriving DecidableEq, Repr

/-- Embedding of `DataMapper.get_data_for_component` (data_mapper.py:100-137), with the
mapper's held state threaded explicitly.  `envVars` stands for the date/time
defaults plus the load metadata that `_get_text_data` merges first
(data_mapper.py:154-162, ambient clock and file metadata made explicit).
The result pairs the derived data with the (unchanged) session state. -/
def getDataForComponent {α : Type} [LinearOrder α] [Inhabited α]
    (envVars : List (String × String)) (cfg : MapperCompConfig)
    (addVars : List (String × String)) (st : MapperState α) :
    ComponentData α × MapperState α :=
  match cfg.type? with
  | some "text" =>
      (.varDict (dictUpdate (dictUpdate envVars cfg.cfgVars) addVars), st)
  | some "table" => (.frame (getTabularData cfg.dataSource st.data), st)
  | some "chart" => (.frame (getTabularData cfg.dataSource st.data), st)
  | some "summary" => (.frame (getTabularData cfg.dataSource st.data), st)
  | some "image" => (.imageSpec cfg.dataSource, st)
  | _ => (.rawSession st.data, st)

/-- Embedding of `{v: k for k, v in mapping.items()}` (data_mapper.py:267): later
duplicate values override earlier ones, as in a Python dict comprehension. -/
def invertMapping (m : List (String × String)) : List (String × String) :=
  m.foldl (fun acc kv => dictUpsert acc kv.2 kv.1) []

/-- The mapping `apply_column_mapping` actually applies after its `reverse`
flag (data_mapper.py:266-267). -/
def effectiveMapping (m : List (String × String)) (reverse : Bool) :
    List (String × String) :=
  if reverse then invertMapping m else m

/-- Embedding of `DataMapper.apply_column_mapping` (data_mapper.py:244-271): raises with
no data loaded; otherwise renames the held session dataset **in place**
(`self.data = self.data.rename(...)`) and returns it. -/
def applyColumnMapping {α : Type} (st : MapperState α)
    (m : List (String × String)) (reverse : Bool) :
    Except PyErr (DataFrame α × MapperState α) :=
  match st.data with
  | none => .error (.valueError "No data loaded")
  | some df =>
      let renamed := renameDF (effectiveMapping m reverse) df
      .ok (renamed, ⟨some renamed⟩)

/-- The rows kept by `filter_data` (`isin`, optionally negated,
data_mapper.py:303-306). -/
def filteredDF {α : Type} [Inhabited α] [DecidableEq α]
    (col : String) (vals : List α) (exclude : Bool) (df : DataFrame α) :
    DataFrame α :=
  ⟨df.cols, df.rows.filter (fun r =>
    if exclude then !(vals.contains (cellVal col r))
    else vals.contains (cellVal col r))⟩

/-- Embedding of `DataMapper.filter_data` (data_mapper.py:273-308): raises with no data
loaded or an unknown column; otherwise narrows the held session dataset
**in place** and returns it. -/
def filterData {α : Type} [Inhabited α] [DecidableEq α] (st : MapperState α)
    (col : String) (vals : List α) (exclude : Bool) :
    Except PyErr (DataFrame α × MapperState α) :=
  match st.data with
  | none => .error (.valueError "No data loaded")
  | some df =>
      if col ∈ df.cols then
        let out := filteredDF col vals exclude df
        .ok (out, ⟨some out⟩)
      else .error (.valueError ("Column '" ++ col ++ "' not found in data"))

/-- The aggregation functions modelled for `grouped.agg(...)`. -/
inductive AggFn where
  | sumF | minF | maxF
  deriving DecidableEq, Repr

/-- Apply one aggregation function to the (nonempty, by construction) value
list of a group. -/
def applyAgg {α : Type} [LinearOrder α] [Add α] [Inhabited α] :
    AggFn → List α → α
  | .sumF, v :: rest => rest.foldl (· + ·) v
  | .minF, v :: rest => rest.foldl min v
  | .maxF, v :: rest => rest.foldl max v
  | _, [] => default

/-- Embedding of `self.data.groupby(group_by).agg(aggregations).reset_index()`
(data_mapper.py:335-336): group keys sorted ascending (pandas
`sort=True` default) and deduplicated, one output row per key with the
group column first and one aggregated column per requested aggregation. -/
def aggDF {α : Type} [LinearOrder α] [Add α] [Inhabited α]
    (groupBy : String) (aggs : List (String × AggFn)) (df : DataFrame α) :
    DataFrame α :=
  let keys := ((df.rows.map (cellVal groupBy)).insertionSort (· ≤ ·)).dedup
  ⟨groupBy :: aggs.map (·.1),
   keys.map (fun k =>
     (groupBy, k) :: aggs.map (fun ca =>
       (ca.1, applyAgg ca.2 (df.rows.filterMap (fun r =>
         if cellVal groupBy r = k then some (cellVal ca.1 r) else none)))))⟩

/-- Embedding of `DataMapper.aggregate_data` (data_mapper.py:310-338): raises with no
data loaded; otherwise replaces the held session dataset **in place** with
the aggregated frame and returns it. -/
def aggregateData {α : Type} [LinearOrder α] [Add α] [Inhabited α]
    (st : MapperState α) (groupBy : String) (aggs : List (String × AggFn)) :
    Except PyErr (DataFrame α × MapperState α) :=
  match st.data with
  | none => .error (.valueError "No data loaded")
  | some df =>
      let out := aggDF groupBy aggs df
      .ok (out, ⟨some out⟩)

/-! ## Claims C7, C9 and C10 -/

/-- The tabular request of claim C7: `top_n=3, sort_by=C, ascending=false`
and no projection or renaming. -/
def topThreeSpec (C : String) : DataSourceSpec :=
  ⟨none, [], some C, some false, some 3⟩

/-- Reduction of `_get_tabular_data` on the C7 request for a nonempty frame
containing the sort column. -/
theorem getTabularData_topThree {α : Type} [LinearOrder α] [Inhabited α]
    (df : DataFrame α) (C : String) (hC : C ∈ df.cols)
    (hrows : df.rows ≠ []) :
    getTabularData (topThreeSpec C) (some df) =
      ⟨df.cols, (df.rows.insertionSort (descBy C)).take 3⟩ := by
  have hcols : ¬df.cols.isEmpty := by
    cases h : df.cols with
    | nil => rw [h] at hC; cases hC
    | cons a l => simp
  have hrows' : ¬df.rows.isEmpty := by simpa [List.isEmpty_iff] using hrows
  simp [getTabularData, topThreeSpec, hrows', hcols, hC, sortValues]

/-- Claim C7 (confirmed).  For every loaded dataset whose columns include `C`,
the tabular request `top_n=3, sort_by=C, ascending=false` returns exactly
`min 3 row_count` rows; those rows are ordered descending by `C`, and they
are "the 3 largest": the input rows split (as a multiset) into the returned
rows and a remainder, every returned row's `C`-value being ≥ every
remainder row's `C`-value. -/
theorem C7_sort_topn_composition {α : Type} [LinearOrder α] [Inhabited α]
    (df : DataFrame α) (C : String) (hC : C ∈ df.cols) :
    (getTabularData (topThreeSpec C) (some df)).rows.length =
        min 3 df.rows.length ∧
    (getTabularData (topThreeSpec C) (some df)).rows.Pairwise
        (fun a b => cellVal C b ≤ cellVal C a) ∧
    ∃ rest, df.rows.Perm
        ((getTabularData (topThreeSpec C) (some df)).rows ++ rest) ∧
      ∀ a ∈ (getTabularData (topThreeSpec C) (some df)).rows, ∀ b ∈ rest,
        cellVal C b ≤ cellVal C a := by
  by_cases hrows : df.rows = []
  · have hres : getTabularData (topThreeSpec C) (some df) = emptyDF := by
      simp [getTabularData, topThreeSpec, hrows]
    rw [hres, hrows]
    exact ⟨rfl, List.Pairwise.nil, [], List.Perm.refl _, by simp [emptyDF]⟩
  · rw [getTabularData_topThree df C hC hrows]
    set l := df.rows.insertionSort (descBy C) with hl
    have hsorted : List.Pairwise (descBy C) l := List.sorted_insertionSort _ _
    have hperm : l.Perm df.rows := List.perm_insertionSort _ _
    have hsplit : l.take 3 ++ l.drop 3 = l := List.take_append_drop 3 l
    refine ⟨?_, ?_, l.drop 3, ?_, ?_⟩
    · rw [List.length_take, hperm.length_eq]
    · exact List.Pairwise.sublist (List.take_sublist 3 l) hsorted
    · exact (hperm.symm).trans (by rw [hsplit])
    · have := (List.pairwise_append.mp (by rwa [hsplit])).2.2
      exact fun a ha b hb => this a ha b hb

/-- Witness for C7 at a concrete dataset: four one-column rows with values
1, 5, 3, 2 and the request `top_n=3, sort_by="A", ascending=false`. -/
theorem C7_sort_topn_composition_witness :
    (getTabularData (α := Int) (topThreeSpec "A")
        (some ⟨["A"], [[("A", 1)], [("A", 5)], [("A", 3)], [("A", 2)]]⟩)).rows.length =
      min 3 4 ∧
    (getTabularData (α := Int) (topThreeSpec "A")
        (some ⟨["A"], [[("A", 1)], [("A", 5)], [("A", 3)], [("A", 2)]]⟩)).rows.Pairwise
      (fun a b => cellVal "A" b ≤ cellVal "A" a) := by
  have h := C7_sort_topn_composition (α := Int)
    ⟨["A"], [[("A", 1)], [("A", 5)], [("A", 3)], [("A", 2)]]⟩ "A" (by decide)
  exact ⟨h.1, h.2.1⟩

/-- The projection request of claim C9: exactly the frame's own column set,
in order, with no renaming, sorting or truncation. -/
def selfProjectionSpec (cs : List String) : DataSourceSpec :=
  ⟨some cs, [], none, none, none⟩

/-- Rebuilding a row by looking each of its own (duplicate-free) keys back
up reproduces the row. -/
theorem proj_row_id {α : Type} [Inhabited α] (r : Row α)
    (hnd : (r.map Prod.fst).Nodup) :
    (r.map Prod.fst).map (fun c => (c, cellVal c r)) = r := by
  induction r with
  | nil => rfl
  | cons kv rest ih =>
      obtain ⟨k, v⟩ := kv
      simp only [List.map_cons, List.nodup_cons] at hnd ⊢
      obtain ⟨hk, hrest⟩ := hnd
      have hhead : cellVal k ((k, v) :: rest) = v := by
        simp [cellVal, List.find?]
      have htail :
          (rest.map Prod.fst).map (fun c => (c, cellVal c ((k, v) :: rest))) =
          (rest.map Prod.fst).map (fun c => (c, cellVal c rest)) := by
        apply List.map_congr_left
        intro c hc
        have hck : ¬c = k := fun h => hk (h ▸ hc)
        have hkc : ¬k = c := fun h => hck h.symm
        simp [cellVal, List.find?, hkc]
      rw [hhead, htail, ih hrest]

/-- Claim C9 counterexample.  Projection onto the dataset's own column set is
not idempotent on every loaded dataset: a dataset with columns `A`, `B` but
zero rows is flattened by `_get_tabular_data`'s empty-guard
(data_mapper.py:190-191) to the fresh `pd.DataFrame()`, which has no
columns at all and is not equal to the input. -/
theorem C9_projection_zero_rows_counterexample :
    getTabularData (α := Int) (selfProjectionSpec ["A", "B"])
        (some ⟨["A", "B"], []⟩) = ⟨[], []⟩ ∧
    (⟨[], []⟩ : DataFrame Int) ≠ ⟨["A", "B"], []⟩ :=
  ⟨rfl, by decide⟩

/-- Claim C9 as amended.  For every loaded dataset with at least one row and
at least one column — and uniquely-named columns, which the pandas loaders
guarantee by mangling duplicate headers — projecting onto the dataset's
exact existing column set (same columns, same order) returns a dataset
equal to the input.  A dataset with zero rows (or zero columns) instead
collapses to the fresh empty frame. -/
theorem C9_projection_idempotent_amended {α : Type} [LinearOrder α]
    [Inhabited α] (df : DataFrame α) (hwf : df.WellFormed)
    (hnd : df.cols.Nodup) (hrows : df.rows ≠ []) (hcols : df.cols ≠ []) :
    getTabularData (selfProjectionSpec df.cols) (some df) = df := by
  have hrows' : ¬df.rows.isEmpty := by simpa [List.isEmpty_iff] using hrows
  have hcols' : ¬df.cols.isEmpty := by simpa [List.isEmpty_iff] using hcols
  have havail : df.cols.filter (fun c => c ∈ df.cols) = df.cols :=
    List.filter_eq_self.mpr (fun c hc => by simpa using hc)
  have hmapid : ∀ {β : Type} (l : List β) (f : β → β),
      (∀ x ∈ l, f x = x) → l.map f = l := by
    intro β l f h
    induction l with
    | nil => rfl
    | cons a l ih =>
        simp only [List.map_cons, h a (by simp)]
        rw [ih (fun x hx => h x (by simp [hx]))]
  have hproj : projectDF df.cols df = df := by
    unfold projectDF
    have hrid : df.rows.map (fun r => df.cols.map (fun c => (c, cellVal c r)))
        = df.rows := by
      apply hmapid
      intro r hr
      have hkeys : r.map Prod.fst = df.cols := hwf r hr
      rw [← hkeys]
      exact proj_row_id r (by rw [hkeys]; exact hnd)
    rw [hrid]
  have hstep : getTabularData (selfProjectionSpec df.cols) (some df)
      = projectDF df.cols df := by
    simp [getTabularData, selfProjectionSpec, hrows', hcols', havail, hcols]
  rw [hstep, hproj]

/-- Witness for the amended C9: a one-row, one-column dataset is returned
unchanged by projection onto its own column set. -/
theorem C9_projection_idempotent_amended_witness :
    getTabularData (α := Int) (selfProjectionSpec ["A"])
        (some ⟨["A"], [[("A", 7)]]⟩) = ⟨["A"], [[("A", 7)]]⟩ :=
  C9_projection_idempotent_amended (α := Int) ⟨["A"], [[("A", 7)]]⟩
    (by decide) (by decide) (by decide) (by decide)

/-- Claim C10 (confirmed).  `get_data_for_component` leaves the held session
dataset unchanged for every component config (it derives from a copy),
while each of the session-level operations `apply_column_mapping`,
`filter_data` and `aggregate_data` replaces the held session dataset with
the renamed/narrowed/aggregated frame — so that a subsequent
`get_data_for_component` read observes the narrowed data, as the final
conjunct shows for a read after `filter_data`. -/
theorem C10_mapper_purity_and_mutation {α : Type} [LinearOrder α] [Add α]
    [Inhabited α] :
    (∀ (env : List (String × String)) (cfg : MapperCompConfig)
        (add : List (String × String)) (st : MapperState α),
      (getDataForComponent env cfg add st).2 = st) ∧
    (∀ (st : MapperState α) (df : DataFrame α) (m : List (String × String))
        (rev : Bool), st.data = some df →
      applyColumnMapping st m rev =
        .ok (renameDF (effectiveMapping m rev) df,
             ⟨some (renameDF (effectiveMapping m rev) df)⟩)) ∧
    (∀ (st : MapperState α) (df : DataFrame α) (col : String) (vals : List α)
        (ex : Bool), st.data = some df → col ∈ df.cols →
      filterData st col vals ex =
        .ok (filteredDF col vals ex df, ⟨some (filteredDF col vals ex df)⟩)) ∧
    (∀ (st : MapperState α) (df : DataFrame α) (g : String)
        (aggs : List (String × AggFn)), st.data = some df →
      aggregateData st g aggs =
        .ok (aggDF g aggs df, ⟨some (aggDF g aggs df)⟩)) ∧
    (∀ (st : MapperState α) (df : DataFrame α) (col : String) (vals : List α)
        (ex : Bool) (env add : List (String × String)) (ds : DataSourceSpec),
      st.data = some df → col ∈ df.cols →
      ∃ st', filterData st col vals ex = .ok (filteredDF col vals ex df, st') ∧
        (getDataForComponent env ⟨some "table", ds, []⟩ add st').1 =
          .frame (getTabularData ds (some (filteredDF col vals ex df)))) := by
  refine ⟨?_, ?_, ?_, ?_, ?_⟩
  · intro env cfg add st
    unfold getDataForComponent
    split <;> rfl
  · intro st df m rev h
    obtain ⟨d⟩ := st
    simp only [MapperState.data] at h
    subst h
    rfl
  · intro st df col vals ex h hcol
    obtain ⟨d⟩ := st
    simp only [MapperState.data] at h
    subst h
    simp [filterData, hcol]
  · intro st df g aggs h
    obtain ⟨d⟩ := st
    simp only [MapperState.data] at h
    subst h
    rfl
  · intro st df col vals ex env add ds h hcol
    obtain ⟨d⟩ := st
    simp only [MapperState.data] at h
    subst h
    exact ⟨⟨some (filteredDF col vals ex df)⟩, by simp [filterData, hcol], rfl⟩

/-- Witness for C10 at a concrete one-row session dataset: the component
read leaves the state unchanged, while rename/filter/aggregate each replace
the held dataset. -/
theorem C10_mapper_purity_and_mutation_witness :
    (getDataForComponent (α := Int) [] ⟨some "table", topThreeSpec "A", []⟩ []
        ⟨some ⟨["A"], [[("A", 1)]]⟩⟩).2 = ⟨some ⟨["A"], [[("A", 1)]]⟩⟩ ∧
    applyColumnMapping (α := Int) ⟨some ⟨["A"], [[("A", 1)]]⟩⟩ [("A", "B")] false =
      .ok (renameDF (effectiveMapping [("A", "B")] false) ⟨["A"], [[("A", 1)]]⟩,
           ⟨some (renameDF (effectiveMapping [("A", "B")] false) ⟨["A"], [[("A", 1)]]⟩)⟩) ∧
    filterData (α := Int) ⟨some ⟨["A"], [[("A", 1)]]⟩⟩ "A" [2] false =
      .ok (filteredDF "A" [2] false ⟨["A"], [[("A", 1)]]⟩,
           ⟨some (filteredDF "A" [2] false ⟨["A"], [[("A", 1)]]⟩)⟩) ∧
    aggregateData (α := Int) ⟨some ⟨["A"], [[("A", 1)]]⟩⟩ "A" [("A", .sumF)] =
      .ok (aggDF "A" [("A", .sumF)] ⟨["A"], [[("A", 1)]]⟩,
           ⟨some (aggDF "A" [("A", .sumF)] ⟨["A"], [[("A", 1)]]⟩)⟩) := by
  have h := C10_mapper_purity_and_mutation (α := Int)
  exact ⟨h.1 [] ⟨some "table", topThreeSpec "A", []⟩ [] ⟨some ⟨["A"], [[("A", 1)]]⟩⟩,
    h.2.1 ⟨some ⟨["A"], [[("A", 1)]]⟩⟩ ⟨["A"], [[("A", 1)]]⟩ [("A", "B")] false rfl,
    h.2.2.1 ⟨some ⟨["A"], [[("A", 1)]]⟩⟩ ⟨["A"], [[("A", 1)]]⟩ "A" [2] false rfl (by decide),
    h.2.2.2.1 ⟨some ⟨["A"], [[("A", 1)]]⟩⟩ ⟨["A"], [[("A", 1)]]⟩ "A" [("A", .sumF)] rfl⟩

/-! ## Text variable substitution (`text_component.py:_substitute_variables`) -/

/-- Python string contents, as character lists, for substring reasoning. -/
abbrev Str := List Char

/-- The literal brace characters of a `\x7bkey\x7d` placeholder. -/
def openBrace : Char := '\x7b'

def closeBrace : Char := '\x7d'

/-- Embedding of `needle` is an initial segment of `hay`. -/
def startsWithL : Str → Str → Bool
  | [], _ => true
  | _ :: _, [] => false
  | a :: as, b :: bs => a = b && startsWithL as bs

/-- Python `needle in hay`. -/
def containsSub (needle : Str) : Str → Bool
  | [] => needle.isEmpty
  | c :: rest => startsWithL needle (c :: rest) || containsSub needle rest

/-- Python `hay.replace(needle, repl)`: left-to-right non-overlapping
replacement of every occurrence.  The fuel argument (instantiated with the
hay's length, which bounds the recursion depth) keeps the definition
structural. -/
def replaceAllAux (needle repl : Str) : Nat → Str → Str
  | 0, s => s
  | _, [] => []
  | fuel + 1, c :: rest =>
      if needle ≠ [] ∧ startsWithL needle (c :: rest) then
        repl ++ replaceAllAux needle repl fuel ((c :: rest).drop needle.length)
      else c :: replaceAllAux needle repl fuel rest

def replaceAllSub (needle repl s : Str) : Str :=
  replaceAllAux needle repl s.length s

/-- The `f"\x7b\x7bkey\x7d\x7d"` placeholder built at text_component.py:99. -/
def placeholderOf (k : String) : Str :=
  openBrace :: (k.toList ++ [closeBrace])

/-- Embedding of `TextComponent._substitute_variables` (text_component.py:80-103): walk
the merged variable dict in insertion order and, whenever the current
content contains the key's placeholder, globally replace it by the value's
string form.  Each replacement re-scans the content produced by the
previous ones. -/
def substituteVariables (content : Str) (vars : List (String × String)) : Str :=
  vars.foldl (fun c kv =>
    if containsSub (placeholderOf kv.1) c then
      replaceAllSub (placeholderOf kv.1) kv.2.toList c
    else c) content

/-- The merge of the component's own variables with the render-time data
dict (text_component.py:93-95), later entries winning. -/
def mergedVars (own data : List (String × String)) : List (String × String) :=
  dictUpdate own data

/-- First match for a key among the variables. -/
def lookupVar (vs : List (String × String)) (k : Str) : Option Str :=
  (vs.find? (fun kv => kv.1.toList = k)).map (·.2.toList)

/-- Modelled from the spec: *simultaneous* substitution over the content
template — each `\x7bkey\x7d` placeholder of the template whose key is
present in the dictionary is replaced by its value, placeholders with
absent keys (and an unterminated trailing brace) are kept verbatim, and
substituted values are not re-scanned.  Used only to compare the code's
sequential semantics against the claim's wording. -/
def specSubstituteAux (vs : List (String × String)) : Nat → Str → Str
  | 0, s => s
  | _, [] => []
  | fuel + 1, c :: rest =>
      if c = openBrace then
        match rest.dropWhile (fun ch => ch ≠ closeBrace) with
        | [] => c :: rest
        | _ :: rest2 =>
            let key := rest.takeWhile (fun ch => ch ≠ closeBrace)
            (match lookupVar vs key with
             | some v => v
             | none => openBrace :: (key ++ [closeBrace])) ++
              specSubstituteAux vs fuel rest2
      else c :: specSubstituteAux vs fuel rest

def specSubstitute (vs : List (String × String)) (s : Str) : Str :=
  specSubstituteAux vs s.length s

/-- Claim C8 counterexample.  Substitution is sequential with re-scanning, not
the simultaneous placeholder replacement the claim describes: on the
content `"\x7ba\x7d"` with merged dictionary `{a: "\x7bb\x7d", b: "2"}`,
the claim requires the `a` placeholder to be replaced by the string form of
its value, giving `"\x7bb\x7d"`, but the code's second pass substitutes the
introduced placeholder again and renders `"2"`. -/
theorem C8_substitution_counterexample :
    substituteVariables (placeholderOf "a") [("a", "\x7bb\x7d"), ("b", "2")] =
      "2".toList ∧
    specSubstitute [("a", "\x7bb\x7d"), ("b", "2")] (placeholderOf "a") =
      placeholderOf "b" ∧
    ("2".toList : Str) ≠ placeholderOf "b" := by
  refine ⟨by decide, by decide, by decide⟩

/-- Claim C8 as amended.  Substitution walks the merged dictionary in
insertion order, globally replacing each present key's placeholder in the
current content; a value that itself contains a later key's placeholder is
substituted again (the `"\x7ba\x7d"`/`"2"` example).  When no key's
placeholder occurs in the content the content is returned unchanged — in
particular placeholders with absent keys are left verbatim — and the spec's
example `"Hello \x7bname\x7d"` with `{name: "Ada"}` renders `"Hello Ada"`. -/
theorem C8_substitution_amended :
    (∀ (content : Str) (vars : List (String × String)),
      (∀ kv ∈ vars, containsSub (placeholderOf kv.1) content = false) →
      substituteVariables content vars = content) ∧
    substituteVariables ("Hello ".toList ++ placeholderOf "name")
        [("name", "Ada")] = "Hello Ada".toList ∧
    substituteVariables ("Hello ".toList ++ placeholderOf "missing")
        [("name", "Ada")] = "Hello ".toList ++ placeholderOf "missing" ∧
    substituteVariables (placeholderOf "a") [("a", "\x7bb\x7d"), ("b", "2")] =
      "2".toList := by
  refine ⟨?_, by decide, by decide, by decide⟩
  intro content vars h
  induction vars with
  | nil => rfl
  | cons kv vs ih =>
      have h0 : containsSub (placeholderOf kv.1) content = false :=
        h kv (by simp)
      have hrest : ∀ kv' ∈ vs, containsSub (placeholderOf kv'.1) content = false :=
        fun kv' hkv' => h kv' (by simp [hkv'])
      unfold substituteVariables at ih ⊢
      simp only [List.foldl_cons, h0, Bool.false_eq_true, if_false]
      exact ih hrest

/-- Witness for the amended C8: content without any of the dictionary's
placeholders is returned unchanged. -/
theorem C8_substitution_amended_witness :
    substituteVariables "Hi".toList [("x", "1")] = "Hi".toList :=
  C8_substitution_amended.1 "Hi".toList [("x", "1")] (by decide)

end ExcelPpt
